import Mathlib

/-!
Verification development for the load-reth execution client.

This file gives a shallow embedding of the load-reth components that the
verified properties are about:

* the fixed-randomness constant and its validators (src/lib.rs,
  src/engine/payload.rs),
* payload-builder attributes and their construction / pre-build validation
  (src/engine/payload.rs),
* the payload building loop with its blob-cap clamping
  (src/engine/builder.rs),
* the engine-API inbound payload validator (src/engine/validator.rs),
* genesis validation and normalization (src/chainspec/mod.rs),
* the RPC backpressure admission gate (src/rpc/backpressure.rs).

Machine integers (u64, u128, usize, U256) are modelled as Nat; the only
place where overflow is observable in the modelled code is the
fetch_sub-based release of the admission gate, where the usize wrap-around
is made explicit modulo 2 ^ 64.  External collaborators (the transaction
pool iterator, the EVM, the state provider, upstream reth validation) are
modelled as inputs: each candidate transaction carries the outcome the
external EVM would report for it, and the upstream validator result is a
parameter.
-/

/-- Constant from src/chainspec/mod.rs: Load Network max blobs per block. -/
def LOAD_MAX_BLOB_COUNT : Nat := 1024

/-- Constant from src/chainspec/mod.rs: Load Network target blobs per block. -/
def LOAD_TARGET_BLOB_COUNT : Nat := 512

/-- Constant from src/chainspec/mod.rs: Load Network max blobs per transaction. -/
def LOAD_MAX_BLOBS_PER_TX : Nat := 32

/-- Constant from reth (reth_consensus_common::validation::MAX_RLP_BLOCK_SIZE,
EIP-7934): the maximum RLP-encoded block size.  The exact numeric value is
external to this repository and is irrelevant to the proofs below. -/
def MAX_RLP_BLOCK_SIZE : Nat := 8388608

/-- A 256-bit hash value, modelled as its list of 32 bytes. -/
def B256 := List Nat

instance : DecidableEq B256 := inferInstanceAs (DecidableEq (List Nat))

instance : Repr B256 := inferInstanceAs (Repr (List Nat))

/-- Constant from src/lib.rs: the fixed prev_randao value, 32 bytes that are
all zero except byte 31 which is 1 (the constant 0x00...01). -/
def LOAD_PREVRANDAO : B256 := (List.replicate 32 0).set 31 1

/-- Mirrors src/engine/payload.rs validate_prev_randao: accepts exactly the
fixed constant, otherwise reports an error string. -/
def validate_prev_randao (prev_randao : B256) : Except String Unit :=
  if prev_randao = LOAD_PREVRANDAO then .ok ()
  else .error "prev_randao must be constant 0x01 for Load"

/-- Mirrors src/engine/payload.rs LoadPayloadAttributesError. -/
inductive LoadPayloadAttributesError where
  | invalidPrevRandao (msg : String)
  | invalidTimestamp (msg : String)
deriving DecidableEq, Repr

/-- Mirrors src/engine/payload.rs LoadPayloadAttributes (the inbound RPC
attributes).  Only the fields read by the modelled checks are kept:
timestamp and prev_randao; fee recipient, withdrawals and parent beacon
root are carried through construction unchanged and never inspected. -/
structure LoadPayloadAttributes where
  timestamp : Nat
  prev_randao : B256
deriving DecidableEq, Repr

/-- Mirrors src/engine/payload.rs LoadPayloadBuilderAttributes (the wrapper
around EthPayloadBuilderAttributes).  As for the RPC attributes, only the
fields the modelled code inspects are kept. -/
structure LoadPayloadBuilderAttributes where
  parent : B256
  timestamp : Nat
  prev_randao : B256
deriving DecidableEq, Repr

/-- Mirrors src/engine/payload.rs LoadPayloadBuilderAttributes::try_new:
the inner EthPayloadBuilderAttributes construction is infallible, then
prev_randao is validated against the fixed constant. -/
def try_new (parent : B256) (rpc_payload_attributes : LoadPayloadAttributes)
    (_version : Nat) :
    Except LoadPayloadAttributesError LoadPayloadBuilderAttributes :=
  let inner : LoadPayloadBuilderAttributes :=
    { parent := parent
      timestamp := rpc_payload_attributes.timestamp
      prev_randao := rpc_payload_attributes.prev_randao }
  match validate_prev_randao inner.prev_randao with
  | .error msg => .error (.invalidPrevRandao msg)
  | .ok _ => .ok inner

/-- Mirrors src/engine/payload.rs validate_payload_attributes: re-checks
prev_randao, then requires the timestamp to strictly exceed the parent
timestamp. -/
def validate_payload_attributes (parent_timestamp : Nat)
    (attrs : LoadPayloadBuilderAttributes) :
    Except LoadPayloadAttributesError Unit :=
  match validate_prev_randao attrs.prev_randao with
  | .error msg => .error (.invalidPrevRandao msg)
  | .ok _ =>
    if attrs.timestamp ≤ parent_timestamp then
      .error (.invalidTimestamp "timestamp must be greater than parent")
    else .ok ()

/-! ## RPC backpressure admission gate (src/rpc/backpressure.rs) -/

/-- The modulus of the usize counter (64-bit platform). -/
def USIZE_MOD : Nat := 2 ^ 64

/-- Mirrors src/rpc/backpressure.rs MethodGate: a static limit plus the
in-flight counter for one guarded method. -/
structure MethodGate where
  limit : Nat
  inflight : Nat
deriving DecidableEq, Repr

/-- Mirrors src/rpc/backpressure.rs LoadRpcBackpressureState::try_acquire.
The Rust code reads the counter, rejects immediately when it is at or above
the limit, and otherwise increments via compare_exchange_weak, retrying on
contention; in this sequential model the compare-and-set always succeeds,
so the retry loop collapses to a single read-check-increment. -/
def try_acquire (gate : MethodGate) : Option MethodGate :=
  if gate.inflight ≥ gate.limit then none
  else some { gate with inflight := gate.inflight + 1 }

/-- Mirrors src/rpc/backpressure.rs LoadRpcBackpressureState::release.
fetch_sub(1) wraps modulo 2 ^ 64 and returns the pre-decrement value; when
that pre-decrement value was zero the code stores zero back. -/
def release (gate : MethodGate) : MethodGate :=
  let prev := gate.inflight
  let wrapped := (prev + (USIZE_MOD - 1)) % USIZE_MOD
  if prev = 0 then { gate with inflight := 0 }
  else { gate with inflight := wrapped }

/-! ## Engine API inbound payload validation (src/engine/validator.rs) -/

/-- Mirrors reth EngineObjectValidationError as far as the modelled code
distinguishes its cases: the Load checks always report InvalidParams; the
delegated upstream validation may report anything. -/
inductive EngineObjectValidationErrorM where
  | invalidParams (msg : String)
  | unsupportedFork
  | other (msg : String)
deriving DecidableEq, Repr

/-- Mirrors the execution-payload alternative of PayloadOrAttributes as read
by LoadEngineValidator::validate_version_specific_fields: the payload
prev_randao, the length of the sidecar versioned-hash list when the sidecar
carries one, whether the sidecar carries Prague request data, and the
payload timestamp. -/
structure InboundExecutionPayload where
  prev_randao : B256
  versioned_hashes_len : Option Nat
  has_requests : Bool
  timestamp : Nat
deriving DecidableEq, Repr

/-- The check of the declared versioned-hash count against the Load budget:
the sidecar declares a hash list and its length exceeds the cap. -/
def declared_hashes_over_cap (versioned_hashes_len : Option Nat) : Bool :=
  match versioned_hashes_len with
  | some n => decide (n > LOAD_MAX_BLOB_COUNT)
  | none => false

/-- Recognizer for the structured invalid-params outcome. -/
def is_invalid_params (r : Except EngineObjectValidationErrorM Unit) : Bool :=
  match r with
  | .error (.invalidParams _) => true
  | _ => false

/-- Mirrors src/engine/validator.rs
LoadEngineValidator::validate_version_specific_fields on the
ExecutionPayload branch of PayloadOrAttributes.  is_prague_active_at is the
chain-spec fork predicate; upstream is the result of the delegated
reth_payload_primitives::validate_version_specific_fields call, which is
external to this repository. -/
def validate_version_specific_fields (is_prague_active_at : Nat → Bool)
    (upstream : Except EngineObjectValidationErrorM Unit)
    (payload : InboundExecutionPayload) :
    Except EngineObjectValidationErrorM Unit :=
  let prague_active := is_prague_active_at payload.timestamp
  if payload.prev_randao ≠ LOAD_PREVRANDAO then
    .error (.invalidParams "prev_randao must be constant 0x01 for Load")
  else if declared_hashes_over_cap payload.versioned_hashes_len = true then
    .error (.invalidParams "too many blob versioned hashes")
  else if prague_active = false ∧ payload.has_requests = true then
    .error (.invalidParams "Prague payload fields not active at timestamp")
  else upstream

/-! ## Genesis validation (src/chainspec/mod.rs) -/

/-- Mirrors the fields of alloy Genesis / ChainConfig that
LoadChainSpec::validate_genesis reads and writes.  The fourteen pre-Cancun
fork block fields (homestead, dao, eip150, eip155, eip158, byzantium,
constantinople, petersburg, istanbul, muir glacier, berlin, london, arrow
glacier, gray glacier) are kept as a list in source order, matching the
array the Rust code iterates. -/
structure GenesisConfig where
  cancun_time : Option Nat
  terminal_total_difficulty : Option Nat
  terminal_total_difficulty_passed : Bool
  merge_netsplit_block : Option Nat
  pre_cancun_fork_blocks : List (Option Nat)
  shanghai_time : Option Nat
  prague_time : Option Nat
deriving DecidableEq, Repr

/-- Shared shape of the per-field normalization in validate_genesis: a
specified nonzero activation is a hard error, a specified zero is kept, an
unspecified activation is defaulted to genesis. -/
def normalize_activation (err_msg : String) (v : Option Nat) :
    Except String (Option Nat) :=
  match v with
  | some b => if b ≠ 0 then .error err_msg else .ok (some b)
  | none => .ok (some 0)

/-- The for-loop of validate_genesis over the pre-Cancun fork block fields,
bailing out at the first nonzero entry and defaulting missing entries. -/
def normalize_pre_cancun_forks :
    List (Option Nat) → Except String (List (Option Nat))
  | [] => .ok []
  | f :: rest =>
    match normalize_activation
        "Load Network requires pre-Cancun forks at block 0" f with
    | .error e => .error e
    | .ok f2 =>
      match normalize_pre_cancun_forks rest with
      | .error e => .error e
      | .ok rest2 => .ok (f2 :: rest2)

/-- Mirrors src/chainspec/mod.rs LoadChainSpec::validate_genesis: Cancun
must be explicitly scheduled at time 0; terminal total difficulty, the
merge netsplit block, the pre-Cancun fork blocks, and the Shanghai and
Prague times must be zero when specified and are defaulted to genesis when
unspecified; terminal_total_difficulty_passed is forced to true. -/
def validate_genesis (g : GenesisConfig) : Except String GenesisConfig :=
  if g.cancun_time ≠ some 0 then
    .error "Load Network requires Cancun hardfork at genesis"
  else
    match normalize_activation
        "Load Network PoS mode requires terminalTotalDifficulty = 0"
        g.terminal_total_difficulty with
    | .error e => .error e
    | .ok ttd =>
      match normalize_activation
          "Load Network requires merge_netsplit_block = 0"
          g.merge_netsplit_block with
      | .error e => .error e
      | .ok merge =>
        match normalize_pre_cancun_forks g.pre_cancun_fork_blocks with
        | .error e => .error e
        | .ok pre =>
          match normalize_activation
              "Load Network requires Shanghai hardfork at genesis"
              g.shanghai_time with
          | .error e => .error e
          | .ok sh =>
            match normalize_activation
                "Load Network requires Prague hardfork at genesis"
                g.prague_time with
            | .error e => .error e
            | .ok pr =>
              .ok { g with
                terminal_total_difficulty := ttd
                terminal_total_difficulty_passed := true
                merge_netsplit_block := merge
                pre_cancun_fork_blocks := pre
                shanghai_time := sh
                prague_time := pr }

/-- An activation that is either unspecified or explicitly at genesis. -/
def opt_zero (v : Option Nat) : Prop := v = none ∨ v = some 0

/-! ## Payload building loop (src/engine/builder.rs) -/

/-- The blob parameters read from the chain-spec schedule; only
max_blob_count is inspected by the modelled code. -/
structure BlobParamsModel where
  max_blob_count : Nat
deriving DecidableEq, Repr

/-- The LoadChainSpec interface that default_load_payload consumes: the
blob-parameter schedule and the fork-activation predicates, all indexed by
timestamp.  The underlying reth ChainSpec is external to this repository. -/
structure LoadChainSpecModel where
  blob_params_at_timestamp : Nat → Option BlobParamsModel
  is_osaka_active_at_timestamp : Nat → Bool
  is_prague_active_at_timestamp : Nat → Bool

/-- Mirrors src/engine/builder.rs compute_load_blob_cap: the schedule cap at
the timestamp, defaulted to the Load constant when absent, clamped from
above by the Load constant. -/
def compute_load_blob_cap (chain_spec : LoadChainSpecModel) (timestamp : Nat) :
    Nat :=
  Nat.min
    (((chain_spec.blob_params_at_timestamp timestamp).map
      (fun params => params.max_blob_count)).getD LOAD_MAX_BLOB_COUNT)
    LOAD_MAX_BLOB_COUNT

/-- The sidecar lookup result for a blob-carrying candidate, as observed at
the pool.get_blob call site: the pool call itself may fail, the sidecar may
be absent, or it is present tagged with its scheme (EIP-7594 or EIP-4844). -/
inductive SidecarFetch where
  | fetchFailed
  | missing
  | present (is_eip7594 : Bool)
deriving DecidableEq, Repr

/-- The outcome the external EVM reports for executing one candidate, split
exactly as the match in default_load_payload splits it: success with gas
used, the nonce-too-low validation error, any other validation-class error,
or a non-validation error. -/
inductive ExecOutcome where
  | success (gas_used : Nat)
  | nonceTooLow
  | invalidOther
  | fatal
deriving DecidableEq, Repr

/-- One candidate transaction offered by the pool iterator, together with
the externally determined data the loop body reads about it: its pool id,
the ids of candidates it depends on, the gas limit, the RLP length of the
consensus transaction, whether it is an EIP-4844 transaction and its
versioned-hash count, the sidecar lookup result, the EVM outcome, and the
effective tip per gas at the block base fee. -/
structure Candidate where
  id : Nat
  ancestors : List Nat
  gas_limit : Nat
  rlp_length : Nat
  is_blob : Bool
  blob_count : Nat
  sidecar : SidecarFetch
  exec : ExecOutcome
  effective_tip : Nat
deriving DecidableEq, Repr

/-- The mutable locals of the selection loop in default_load_payload:
cumulative_gas_used, block_blob_count, block_transactions_rlp_length,
total_fees, the executed transactions (by id, with their pushed sidecars
implied), plus the state of the pool iterator: the ids marked invalid by
best_txs.mark_invalid and the best_txs.skip_blobs flag. -/
structure SelectionState where
  cumulative_gas_used : Nat
  block_blob_count : Nat
  block_transactions_rlp_length : Nat
  total_fees : Nat
  executed_txs : List Nat
  invalidated : List Nat
  skip_blobs : Bool
deriving DecidableEq, Repr

/-- The initial loop state: all accumulators zero, no sidecars, nothing
invalidated, blob candidates still offered. -/
def initial_selection_state : SelectionState :=
  { cumulative_gas_used := 0
    block_blob_count := 0
    block_transactions_rlp_length := 0
    total_fees := 0
    executed_txs := []
    invalidated := []
    skip_blobs := false }

/-- Mirrors best_txs.mark_invalid: the candidate id is recorded so that the
iterator stops offering its dependents. -/
def mark_invalid (st : SelectionState) (c : Candidate) : SelectionState :=
  { st with invalidated := c.id :: st.invalidated }

/-- Build-fatal errors of default_load_payload: attribute validation
failure, a failed pool.get_blob call, a non-validation execution error, and
the post-seal oversize error. -/
inductive BuildError where
  | attrError (e : LoadPayloadAttributesError)
  | blobFetchFailed
  | evmFatal
  | blockTooLarge
deriving DecidableEq, Repr

/-- How the selection loop ends: interrupted by cancellation, or the source
exhausted with the final state. -/
inductive SelectionExit where
  | cancelled
  | done (st : SelectionState)
deriving DecidableEq, Repr

/-- The effect of one iteration of the selection loop: either move to the
next candidate with an updated state, or end the whole loop with a result.
-/
inductive StepOutcome where
  | advance (st : SelectionState)
  | halt (r : Except BuildError SelectionExit)
deriving Repr

/-- The labelled sidecar block of default_load_payload for a candidate that
passed the blob-cap check: a pool error is build-fatal, a missing sidecar
or one tagged with the wrong scheme for the active fork marks the candidate
invalid, otherwise execution proceeds with the sidecar retained. -/
inductive SidecarDecision where
  | fatalFetch
  | markAndContinue
  | proceed
deriving DecidableEq, Repr

/-- The sidecar fetch and scheme check of default_load_payload: only
EIP-4844 candidates fetch a sidecar; after Osaka only EIP-7594 sidecars are
accepted, before Osaka only EIP-4844 sidecars. -/
def sidecar_check (is_osaka : Bool) (c : Candidate) : SidecarDecision :=
  if c.is_blob = true then
    match c.sidecar with
    | .fetchFailed => .fatalFetch
    | .missing => .markAndContinue
    | .present is7594 =>
      if is_osaka = true then
        (if is7594 = true then .proceed else .markAndContinue)
      else
        (if is7594 = true then .markAndContinue else .proceed)
  else .proceed

/-- The build-request inputs of default_load_payload that are fixed for the
whole run: the parent timestamp, the validated builder attributes, the
block gas limit and withdrawals RLP length from the block environment, the
cancellation signal (a sticky flag polled inside the loop), the chain spec,
the fees of the best payload so far, and the sealed-block RLP length the
external block builder reports for a given transaction list. -/
structure BuildEnv where
  parent_timestamp : Nat
  attrs : LoadPayloadBuilderAttributes
  block_gas_limit : Nat
  withdrawals_length : Nat
  cancel : Bool
  chain_spec : LoadChainSpecModel
  best_payload_fees : Option Nat
  sealed_rlp_length : List Nat → Nat

/-- One iteration of the while-let loop in default_load_payload.  The first
two branches are the pool iterator itself declining to offer the candidate
(a dependent of an invalidated candidate, or a blob candidate after
skip_blobs); the remaining branches are the loop body in source order: the
gas-limit check, the cancellation poll, the Osaka block-size check, the
blob-cap check, the sidecar block, and execution with the accumulator
update and the exact-cap skip_blobs trigger. -/
def selection_step (env : BuildEnv) (cap : Nat) (is_osaka : Bool)
    (st : SelectionState) (c : Candidate) : StepOutcome :=
  if c.ancestors.any (fun a => st.invalidated.contains a) = true then
    .advance st
  else if st.skip_blobs = true ∧ c.is_blob = true then
    .advance st
  else if st.cumulative_gas_used + c.gas_limit > env.block_gas_limit then
    .advance (mark_invalid st c)
  else if env.cancel = true then
    .halt (.ok .cancelled)
  else if is_osaka = true ∧
      st.block_transactions_rlp_length + c.rlp_length +
        env.withdrawals_length + 1024 > MAX_RLP_BLOCK_SIZE then
    .advance (mark_invalid st c)
  else if c.is_blob = true ∧ st.block_blob_count + c.blob_count > cap then
    .advance (mark_invalid st c)
  else
    match sidecar_check is_osaka c with
    | .fatalFetch => .halt (.error .blobFetchFailed)
    | .markAndContinue => .advance (mark_invalid st c)
    | .proceed =>
      match c.exec with
      | .fatal => .halt (.error .evmFatal)
      | .nonceTooLow => .advance st
      | .invalidOther => .advance (mark_invalid st c)
      | .success gas_used =>
        let blob_count_after :=
          st.block_blob_count + (if c.is_blob = true then c.blob_count else 0)
        .advance
          { cumulative_gas_used := st.cumulative_gas_used + gas_used
            block_blob_count := blob_count_after
            block_transactions_rlp_length :=
              st.block_transactions_rlp_length + c.rlp_length
            total_fees := st.total_fees + c.effective_tip * gas_used
            executed_txs := st.executed_txs ++ [c.id]
            invalidated := st.invalidated
            skip_blobs := st.skip_blobs ||
              (c.is_blob && (blob_count_after == cap)) }

/-- The while-let selection loop of default_load_payload over the candidate
source. -/
def selection_loop (env : BuildEnv) (cap : Nat) (is_osaka : Bool) :
    SelectionState → List Candidate → Except BuildError SelectionExit
  | st, [] => .ok (.done st)
  | st, c :: rest =>
    match selection_step env cap is_osaka st c with
    | .advance st2 => selection_loop env cap is_osaka st2 rest
    | .halt r => r

/-- Mirrors reth_basic_payload_builder::is_better_payload: no best payload
yet, or strictly greater total fees. -/
def is_better_payload (best_payload_fees : Option Nat) (new_fees : Nat) :
    Bool :=
  match best_payload_fees with
  | none => true
  | some best => decide (best < new_fees)

/-- The sealed output of a successful build as far as the claims read it:
the executed transactions, the cumulative count of data-availability items
in the sidecar collection (equal to block_blob_count since each executed
blob transaction pushes its sidecar), the total fees, and whether the
Prague request list is attached. -/
structure BuiltPayloadModel where
  executed_txs : List Nat
  blob_count : Nat
  fees : Nat
  has_requests : Bool
deriving DecidableEq, Repr

/-- Mirrors reth_basic_payload_builder::BuildOutcome restricted to the
variants default_load_payload produces. -/
inductive BuildOutcomeM where
  | better (payload : BuiltPayloadModel)
  | aborted (fees : Nat)
  | cancelled
deriving DecidableEq, Repr

/-- Mirrors src/engine/builder.rs default_load_payload: validate the
attributes against the parent, compute the effective blob cap and the Osaka
flag for the block timestamp, run the selection loop from the empty
accumulator, then either abort (fees not strictly better), fail on an
oversized sealed block (Osaka only), or seal the payload, attaching the
request list exactly when Prague is active at the block timestamp.  The
state-provider and EVM plumbing (state view, pre-execution changes, finish)
are external and modelled as infallible. -/
def default_load_payload (env : BuildEnv) (candidates : List Candidate) :
    Except BuildError BuildOutcomeM :=
  match validate_payload_attributes env.parent_timestamp env.attrs with
  | .error e => .error (.attrError e)
  | .ok _ =>
    let max_blob_count :=
      compute_load_blob_cap env.chain_spec env.attrs.timestamp
    let is_osaka :=
      env.chain_spec.is_osaka_active_at_timestamp env.attrs.timestamp
    match selection_loop env max_blob_count is_osaka
        initial_selection_state candidates with
    | .error e => .error e
    | .ok .cancelled => .ok .cancelled
    | .ok (.done st) =>
      if is_better_payload env.best_payload_fees st.total_fees = true then
        if is_osaka = true ∧
            env.sealed_rlp_length st.executed_txs > MAX_RLP_BLOCK_SIZE then
          .error .blockTooLarge
        else
          .ok (.better
            { executed_txs := st.executed_txs
              blob_count := st.block_blob_count
              fees := st.total_fees
              has_requests :=
                env.chain_spec.is_prague_active_at_timestamp
                  env.attrs.timestamp })
      else .ok (.aborted st.total_fees)

/-- Projection used to state concrete build results: the blob count of a
Better outcome. -/
def outcome_blob_count (r : Except BuildError BuildOutcomeM) : Option Nat :=
  match r with
  | .ok (.better p) => some p.blob_count
  | _ => none

/-- Projection used to state concrete build results: whether the run ended
with the Cancelled outcome. -/
def outcome_is_cancelled (r : Except BuildError BuildOutcomeM) : Bool :=
  match r with
  | .ok .cancelled => true
  | _ => false

/-! ## Concrete instances used by the scenario-style theorems -/

/-- A chain spec with the Load default configuration: schedule cap 1024 at
every timestamp, Osaka not active, Prague active. -/
def scen_b_chain_spec : LoadChainSpecModel :=
  { blob_params_at_timestamp := fun _ => some { max_blob_count := 1024 }
    is_osaka_active_at_timestamp := fun _ => false
    is_prague_active_at_timestamp := fun _ => true }

/-- Valid builder attributes for timestamp 1 with the fixed randomness. -/
def scen_b_attrs : LoadPayloadBuilderAttributes :=
  { parent := List.replicate 32 0
    timestamp := 1
    prev_randao := LOAD_PREVRANDAO }

/-- The build environment for the oversubscribed-blob run: ample gas, no
cancellation, no best payload yet. -/
def scen_b_env : BuildEnv :=
  { parent_timestamp := 0
    attrs := scen_b_attrs
    block_gas_limit := 2000000000
    withdrawals_length := 1
    cancel := false
    chain_spec := scen_b_chain_spec
    best_payload_fees := none
    sealed_rlp_length := fun _ => 0 }

/-- Thirty-three transactions of 32 data-availability items each (1056 in
total), all individually valid. -/
def scen_b_candidates : List Candidate :=
  (List.range 33).map (fun i =>
    { id := i
      ancestors := []
      gas_limit := 21000
      rlp_length := 100
      is_blob := true
      blob_count := 32
      sidecar := .present false
      exec := .success 21000
      effective_tip := 1 })

/-- The payload the oversubscribed-blob run produces: the first 32
transactions, exactly 1024 items. -/
def scen_b_payload : BuiltPayloadModel :=
  { executed_txs := List.range 32
    blob_count := 1024
    fees := 672000
    has_requests := true }

/-- A build environment whose cancellation signal is set from the start and
whose gas limit is below every candidate. -/
def c3_env : BuildEnv :=
  { parent_timestamp := 0
    attrs := scen_b_attrs
    block_gas_limit := 50
    withdrawals_length := 0
    cancel := true
    chain_spec := scen_b_chain_spec
    best_payload_fees := some 0
    sealed_rlp_length := fun _ => 0 }

/-- A candidate whose gas limit exceeds the c3_env block gas limit. -/
def c3_candidate : Candidate :=
  { id := 7
    ancestors := []
    gas_limit := 100
    rlp_length := 0
    is_blob := false
    blob_count := 0
    sidecar := .missing
    exec := .success 10
    effective_tip := 0 }

/-- A build environment whose attributes fail pre-build validation: the
block timestamp (1) does not exceed the parent timestamp (5). -/
def c6_env : BuildEnv :=
  { parent_timestamp := 5
    attrs := scen_b_attrs
    block_gas_limit := 50
    withdrawals_length := 0
    cancel := false
    chain_spec := scen_b_chain_spec
    best_payload_fees := none
    sealed_rlp_length := fun _ => 0 }

/-- A chain spec whose schedule would allow 2048 blobs per block. -/
def clamp_demo_spec : LoadChainSpecModel :=
  { blob_params_at_timestamp := fun _ => some { max_blob_count := 2048 }
    is_osaka_active_at_timestamp := fun _ => false
    is_prague_active_at_timestamp := fun _ => true }

/-- An inbound execution payload declaring 1025 versioned hashes. -/
def scen_d_payload : InboundExecutionPayload :=
  { prev_randao := LOAD_PREVRANDAO
    versioned_hashes_len := some 1025
    has_requests := false
    timestamp := 1 }

/-- An inbound execution payload carrying Prague request data at
timestamp 1. -/
def scen_f_payload : InboundExecutionPayload :=
  { prev_randao := LOAD_PREVRANDAO
    versioned_hashes_len := some 0
    has_requests := true
    timestamp := 1 }

/-- A Prague schedule that activates at timestamp 1000. -/
def prague_at_1000 : Nat → Bool := fun ts => decide (1000 ≤ ts)

/-- A genesis description that specifies Cancun at genesis and leaves every
other boundary unspecified, so derivation must default-fill them. -/
def c9_good_genesis : GenesisConfig :=
  { cancun_time := some 0
    terminal_total_difficulty := none
    terminal_total_difficulty_passed := false
    merge_netsplit_block := none
    pre_cancun_fork_blocks := List.replicate 14 none
    shanghai_time := none
    prague_time := none }

/-- A genesis description with a nonzero Cancun activation time, the
Scenario A input. -/
def scen_a_genesis : GenesisConfig :=
  { c9_good_genesis with cancun_time := some 100 }

/-- A genesis description that leaves the Cancun activation unspecified and
specifies every other boundary at genesis. -/
def c9_cex_genesis : GenesisConfig :=
  { cancun_time := none
    terminal_total_difficulty := some 0
    terminal_total_difficulty_passed := true
    merge_netsplit_block := some 0
    pre_cancun_fork_blocks := List.replicate 14 (some 0)
    shanghai_time := some 0
    prague_time := some 0 }

/-! ## Helper lemmas -/

/-- The prev_randao validator accepts exactly the fixed constant. -/
theorem validate_prev_randao_ok_iff (r : B256) :
    validate_prev_randao r = .ok () ↔ r = LOAD_PREVRANDAO := by
  unfold validate_prev_randao
  split
  · simp_all
  · simp_all

/-- A halted selection step carries cancellation or a build-fatal error,
never a done state. -/
theorem selection_step_halt_shape (env : BuildEnv) (cap : Nat)
    (is_osaka : Bool) (st : SelectionState) (c : Candidate)
    (r : Except BuildError SelectionExit)
    (h : selection_step env cap is_osaka st c = .halt r) :
    r = .ok .cancelled ∨ r = .error .blobFetchFailed ∨ r = .error .evmFatal := by
  unfold selection_step at h
  repeat' split at h
  all_goals simp_all

/-- One advancing selection step preserves the blob-cap bound on the
accumulated blob count. -/
theorem selection_step_advance_blob_le (env : BuildEnv) (cap : Nat)
    (is_osaka : Bool) (st : SelectionState) (c : Candidate)
    (st2 : SelectionState) (hst : st.block_blob_count ≤ cap)
    (h : selection_step env cap is_osaka st c = .advance st2) :
    st2.block_blob_count ≤ cap := by
  unfold selection_step at h
  repeat' split at h
  all_goals try exact StepOutcome.noConfusion h
  all_goals injection h with h2
  all_goals subst h2
  all_goals simp_all [mark_invalid]

/-- The selection loop preserves the blob-cap bound from any starting state
through to its final state. -/
theorem selection_loop_done_blob_le (env : BuildEnv) (cap : Nat)
    (is_osaka : Bool) :
    ∀ (cands : List Candidate) (st st2 : SelectionState),
      st.block_blob_count ≤ cap →
      selection_loop env cap is_osaka st cands = .ok (.done st2) →
      st2.block_blob_count ≤ cap := by
  intro cands
  induction cands with
  | nil =>
    intro st st2 hst h
    unfold selection_loop at h
    cases h
    exact hst
  | cons c rest ih =>
    intro st st2 hst h
    unfold selection_loop at h
    cases hstep : selection_step env cap is_osaka st c with
    | advance st1 =>
      rw [hstep] at h
      exact ih st1 st2
        (selection_step_advance_blob_le env cap is_osaka st c st1 hst hstep) h
    | halt r =>
      rw [hstep] at h
      rcases selection_step_halt_shape env cap is_osaka st c r hstep with
        h1 | h1 | h1 <;> subst h1 <;> cases h

/-! ## Claim theorems -/

/-- Claim C2: for every timestamp the effective data-availability cap is the
minimum of the schedule cap at that timestamp and the hard cap 1024; it
never exceeds 1024; an absent schedule gives the hard cap; and a schedule
above the hard cap is clamped down to it. -/
theorem c2_effective_cap_is_min (chain_spec : LoadChainSpecModel)
    (ts : Nat) :
    (∀ params, chain_spec.blob_params_at_timestamp ts = some params →
      compute_load_blob_cap chain_spec ts =
        Nat.min params.max_blob_count LOAD_MAX_BLOB_COUNT)
    ∧ compute_load_blob_cap chain_spec ts ≤ LOAD_MAX_BLOB_COUNT
    ∧ (chain_spec.blob_params_at_timestamp ts = none →
      compute_load_blob_cap chain_spec ts = LOAD_MAX_BLOB_COUNT)
    ∧ (∀ params, chain_spec.blob_params_at_timestamp ts = some params →
      LOAD_MAX_BLOB_COUNT ≤ params.max_blob_count →
      compute_load_blob_cap chain_spec ts = LOAD_MAX_BLOB_COUNT) := by
  refine ⟨?_, ?_, ?_, ?_⟩
  · intro params hp
    unfold compute_load_blob_cap
    rw [hp]
    rfl
  · exact Nat.min_le_right _ _
  · intro hp
    unfold compute_load_blob_cap
    rw [hp]
    rfl
  · intro params hp hge
    unfold compute_load_blob_cap
    rw [hp]
    simpa using hge

/-- Witness for C2 at the clamping chain spec: a schedule cap of 2048 is
clamped to the 1024 hard cap. -/
theorem c2_effective_cap_is_min_witness :
    compute_load_blob_cap clamp_demo_spec 7 = LOAD_MAX_BLOB_COUNT :=
  (c2_effective_cap_is_min clamp_demo_spec 7).2.2.2
    { max_blob_count := 2048 } rfl (by decide)

/-- Releasing a positive, representable in-flight counter decrements it by
exactly one: the wrapping fetch_sub lands on the ordinary predecessor. -/
theorem release_pos_decrement (L n : Nat) (h1 : 1 ≤ n) (h2 : n < USIZE_MOD) :
    release { limit := L, inflight := n } =
      { limit := L, inflight := n - 1 } := by
  have hm : 1 ≤ USIZE_MOD := by norm_num [USIZE_MOD]
  unfold release
  dsimp only
  rw [if_neg (by omega)]
  have hmod : n + (USIZE_MOD - 1) = (n - 1) + USIZE_MOD := by omega
  rw [hmod, Nat.add_mod_right, Nat.mod_eq_of_lt (by omega)]

/-- Claim C4: for a guarded method with limit L at least one, try_acquire
admits exactly when the in-flight count is below L (incrementing it), fails
immediately otherwise, releasing a permit decrements the count by one, and
after such a release a subsequent try_acquire for the method succeeds
again. -/
theorem c4_admission_gate (L n : Nat) (hL : 1 ≤ L) :
    ((try_acquire { limit := L, inflight := n }).isSome = true ↔ n < L)
    ∧ (n < L → try_acquire { limit := L, inflight := n } =
        some { limit := L, inflight := n + 1 })
    ∧ (L ≤ n → try_acquire { limit := L, inflight := n } = none)
    ∧ (1 ≤ n → n < USIZE_MOD →
        release { limit := L, inflight := n } =
          { limit := L, inflight := n - 1 })
    ∧ (1 ≤ n → n ≤ L → n < USIZE_MOD →
        (try_acquire (release { limit := L, inflight := n })).isSome =
          true) := by
  refine ⟨?_, ?_, ?_, release_pos_decrement L n, ?_⟩
  · unfold try_acquire
    dsimp only
    split
    · simp
      omega
    · simp
      omega
  · intro h
    unfold try_acquire
    dsimp only
    rw [if_neg (by omega)]
  · intro h
    unfold try_acquire
    dsimp only
    rw [if_pos (by omega)]
  · intro h1 h2 h3
    rw [release_pos_decrement L n h1 h3]
    unfold try_acquire
    dsimp only
    rw [if_neg (by omega)]
    rfl

/-- Witness for C4, the limit-one sequence of Scenario E: the first request
is admitted, the second rejected at capacity, and after the release of the
first permit a third request is admitted again. -/
theorem c4_admission_gate_witness :
    try_acquire { limit := 1, inflight := 0 } =
      some { limit := 1, inflight := 1 }
    ∧ try_acquire { limit := 1, inflight := 1 } = none
    ∧ release { limit := 1, inflight := 1 } = { limit := 1, inflight := 0 }
    ∧ (try_acquire (release { limit := 1, inflight := 1 })).isSome = true :=
  ⟨(c4_admission_gate 1 0 (by decide)).2.1 (by decide),
   (c4_admission_gate 1 1 (by decide)).2.2.1 (by decide),
   (c4_admission_gate 1 1 (by decide)).2.2.2.1 (by decide) (by norm_num [USIZE_MOD]),
   (c4_admission_gate 1 1 (by decide)).2.2.2.2 (by decide) (by decide)
     (by norm_num [USIZE_MOD])⟩

/-- Claim C10: releasing with an in-flight count of zero stores zero back
rather than wrapping to the maximum unsigned integer, releasing with a
count of at least one decrements by one, and acquisitions are still
possible after a spurious release at zero. -/
theorem c10_release_underflow_safe (L : Nat) :
    release { limit := L, inflight := 0 } = { limit := L, inflight := 0 }
    ∧ (∀ n, 1 ≤ n → n < USIZE_MOD →
        (release { limit := L, inflight := n }).inflight = n - 1)
    ∧ (1 ≤ L →
        (try_acquire (release { limit := L, inflight := 0 })).isSome =
          true) := by
  refine ⟨?_, ?_, ?_⟩
  · unfold release
    simp
  · intro n h1 h2
    rw [release_pos_decrement L n h1 h2]
  · intro hL
    unfold release try_acquire
    simp
    omega

/-- Claim C5: construction of builder attributes fails exactly when the
supplied randomness differs from the fixed constant, and succeeds (with the
inbound fields carried over) whenever the randomness equals the constant.
-/
theorem c5_try_new_fails_iff_bad_randao (parent : B256)
    (rpc : LoadPayloadAttributes) (version : Nat) :
    ((∃ e, try_new parent rpc version = .error e) ↔
      rpc.prev_randao ≠ LOAD_PREVRANDAO)
    ∧ (rpc.prev_randao = LOAD_PREVRANDAO →
      try_new parent rpc version =
        .ok { parent := parent
              timestamp := rpc.timestamp
              prev_randao := rpc.prev_randao }) := by
  constructor
  · by_cases hr : rpc.prev_randao = LOAD_PREVRANDAO
    · constructor
      · intro ⟨e, he⟩
        unfold try_new validate_prev_randao at he
        dsimp only at he
        rw [if_pos hr] at he
        cases he
      · intro h
        exact absurd hr h
    · constructor
      · intro _
        exact hr
      · intro _
        refine ⟨.invalidPrevRandao
          "prev_randao must be constant 0x01 for Load", ?_⟩
        unfold try_new validate_prev_randao
        dsimp only
        rw [if_neg hr]
  · intro h
    unfold try_new validate_prev_randao
    dsimp only
    rw [if_pos h]

/-- Witness for C5: the constant randomness is accepted and a differing
randomness is rejected, at timestamp 1 and an all-zero parent hash. -/
theorem c5_try_new_fails_iff_bad_randao_witness :
    try_new (List.replicate 32 0)
        { timestamp := 1, prev_randao := LOAD_PREVRANDAO } 3 =
      .ok { parent := List.replicate 32 0
            timestamp := 1
            prev_randao := LOAD_PREVRANDAO }
    ∧ (∃ e, try_new (List.replicate 32 0)
        { timestamp := 1, prev_randao := List.replicate 32 0 } 3 =
          .error e) :=
  ⟨(c5_try_new_fails_iff_bad_randao (List.replicate 32 0)
      { timestamp := 1, prev_randao := LOAD_PREVRANDAO } 3).2 rfl,
   (c5_try_new_fails_iff_bad_randao (List.replicate 32 0)
      { timestamp := 1, prev_randao := List.replicate 32 0 } 3).1.mpr
     (by decide)⟩

/-- Claim C6: for attributes that passed construction, pre-build validation
fails exactly when the block timestamp does not strictly exceed the parent
timestamp; and a failing pre-build validation makes the builder return the
validation error before any selection work, for every candidate source. -/
theorem c6_prebuild_validation :
    (∀ (parent : B256) (rpc : LoadPayloadAttributes) (version : Nat)
        (a : LoadPayloadBuilderAttributes) (parent_ts : Nat),
      try_new parent rpc version = .ok a →
      ((∃ e, validate_payload_attributes parent_ts a = .error e) ↔
        a.timestamp ≤ parent_ts))
    ∧ (∀ (env : BuildEnv) (cands : List Candidate)
        (e : LoadPayloadAttributesError),
      validate_payload_attributes env.parent_timestamp env.attrs = .error e →
      default_load_payload env cands = .error (.attrError e)) := by
  constructor
  · intro parent rpc version a parent_ts h
    have hrand : a.prev_randao = LOAD_PREVRANDAO := by
      by_cases hr : rpc.prev_randao = LOAD_PREVRANDAO
      all_goals unfold try_new validate_prev_randao at h
      all_goals dsimp only at h
      · rw [if_pos hr] at h
        cases h
        exact hr
      · rw [if_neg hr] at h
        cases h
    unfold validate_payload_attributes
    rw [(validate_prev_randao_ok_iff a.prev_randao).mpr hrand]
    constructor
    · intro ⟨e, he⟩
      by_contra hts
      rw [if_neg hts] at he
      cases he
    · intro hts
      rw [if_pos hts]
      exact ⟨_, rfl⟩
  · intro env cands e h
    unfold default_load_payload
    rw [h]

/-- Witness for C6: constructed attributes with timestamp 1 fail validation
against parent timestamp 5, and a builder run with those attributes reports
the timestamp error for any (here empty) candidate source. -/
theorem c6_prebuild_validation_witness :
    ((∃ e, validate_payload_attributes 5 scen_b_attrs = .error e) ↔
      scen_b_attrs.timestamp ≤ 5)
    ∧ default_load_payload c6_env [] =
      .error (.attrError
        (.invalidTimestamp "timestamp must be greater than parent")) :=
  ⟨c6_prebuild_validation.1 (List.replicate 32 0)
      { timestamp := 1, prev_randao := LOAD_PREVRANDAO } 3 scen_b_attrs 5
      (by rfl),
   c6_prebuild_validation.2 c6_env []
      (.invalidTimestamp "timestamp must be greater than parent") (by rfl)⟩

/-- Claim C8: inbound execution-payload validation reports a structured
invalid-params error whenever the payload randomness differs from the fixed
constant, or the declared versioned-hash count exceeds the 1024 budget, or
Prague request data is carried while Prague is inactive at the payload
timestamp; and when the randomness and hash count are in budget and the
fork is active, the Load checks pass and the result is exactly the
delegated upstream validation. -/
theorem c8_inbound_payload_validation (is_prague_at : Nat → Bool)
    (upstream : Except EngineObjectValidationErrorM Unit)
    (p : InboundExecutionPayload) :
    ((p.prev_randao ≠ LOAD_PREVRANDAO
        ∨ declared_hashes_over_cap p.versioned_hashes_len = true
        ∨ (is_prague_at p.timestamp = false ∧ p.has_requests = true)) →
      is_invalid_params
        (validate_version_specific_fields is_prague_at upstream p) = true)
    ∧ (p.prev_randao = LOAD_PREVRANDAO →
      declared_hashes_over_cap p.versioned_hashes_len = false →
      is_prague_at p.timestamp = true →
      validate_version_specific_fields is_prague_at upstream p =
        upstream) := by
  constructor
  · intro hdisj
    unfold validate_version_specific_fields
    by_cases hA : p.prev_randao = LOAD_PREVRANDAO
    · rw [if_neg (by simp [hA])]
      by_cases hB : declared_hashes_over_cap p.versioned_hashes_len = true
      · rw [if_pos hB]
        rfl
      · rw [if_neg hB]
        have hC : is_prague_at p.timestamp = false ∧ p.has_requests = true := by
          rcases hdisj with h | h | h
          · exact absurd hA h
          · exact absurd h hB
          · exact h
        rw [if_pos hC]
        rfl
    · rw [if_pos hA]
      rfl
  · intro h1 h2 h3
    unfold validate_version_specific_fields
    rw [if_neg (by simp [h1]), if_neg (by simp [h2]), if_neg (by simp [h3])]

/-- Witness for C8: a payload declaring 1025 hashes is rejected with
invalid-params (Scenario D); a payload carrying Prague requests before the
fork is rejected, and the identical payload with the fork active passes the
Load checks and returns the upstream result (Scenario F). -/
theorem c8_inbound_payload_validation_witness :
    is_invalid_params
      (validate_version_specific_fields prague_at_1000 (.ok ())
        scen_d_payload) = true
    ∧ is_invalid_params
      (validate_version_specific_fields prague_at_1000 (.ok ())
        scen_f_payload) = true
    ∧ validate_version_specific_fields (fun _ => true) (.ok ())
        scen_f_payload = .ok () :=
  ⟨(c8_inbound_payload_validation prague_at_1000 (.ok ()) scen_d_payload).1
      (Or.inr (Or.inl (by decide))),
   (c8_inbound_payload_validation prague_at_1000 (.ok ()) scen_f_payload).1
      (Or.inr (Or.inr ⟨by decide, rfl⟩)),
   (c8_inbound_payload_validation (fun _ => true) (.ok ()) scen_f_payload).2
      rfl (by decide) rfl⟩

/-- Counterexample to C3 as stated: with the cancellation signal set from
the start and a single candidate that fails the block-gas-limit check, the
build does not terminate with Cancelled (it marks the candidate invalid
first, exhausts the source, and aborts), because the loop body checks the
gas limit before polling the cancellation signal. -/
theorem c3_counterexample :
    c3_env.cancel = true
    ∧ default_load_payload c3_env [c3_candidate] = .ok (.aborted 0)
    ∧ outcome_is_cancelled (default_load_payload c3_env [c3_candidate]) =
      false :=
  ⟨rfl, rfl, rfl⟩

/-- Claim C3 amended: in the Selecting loop the cancellation signal is
polled once per offered candidate, immediately after the block-gas-limit
check and before every remaining per-candidate check; when cancellation has
been signaled the build terminates with the Cancelled outcome (which
carries no payload) at the first offered candidate that fits the gas limit,
while a candidate failing the gas-limit check is still marked invalid even
with cancellation pending; a halted step ends the loop with exactly that
result, so no partial payload is emitted. -/
theorem c3_cancellation_polled_after_gas_check :
    (∀ (env : BuildEnv) (cap : Nat) (is_osaka : Bool) (st : SelectionState)
        (c : Candidate),
      (c.ancestors.any fun a => st.invalidated.contains a) = false →
      ¬(st.skip_blobs = true ∧ c.is_blob = true) →
      ¬(st.cumulative_gas_used + c.gas_limit > env.block_gas_limit) →
      env.cancel = true →
      selection_step env cap is_osaka st c = .halt (.ok .cancelled))
    ∧ (∀ (env : BuildEnv) (cap : Nat) (is_osaka : Bool) (st : SelectionState)
        (c : Candidate),
      (c.ancestors.any fun a => st.invalidated.contains a) = false →
      ¬(st.skip_blobs = true ∧ c.is_blob = true) →
      st.cumulative_gas_used + c.gas_limit > env.block_gas_limit →
      selection_step env cap is_osaka st c = .advance (mark_invalid st c))
    ∧ (∀ (env : BuildEnv) (cap : Nat) (is_osaka : Bool) (st : SelectionState)
        (c : Candidate) (rest : List Candidate)
        (r : Except BuildError SelectionExit),
      selection_step env cap is_osaka st c = .halt r →
      selection_loop env cap is_osaka st (c :: rest) = r) := by
  refine ⟨?_, ?_, ?_⟩
  · intro env cap is_osaka st c h1 h2 h3 h4
    unfold selection_step
    rw [if_neg (by rw [h1]; exact Bool.false_ne_true), if_neg h2, if_neg h3,
      if_pos h4]
  · intro env cap is_osaka st c h1 h2 h3
    unfold selection_step
    rw [if_neg (by rw [h1]; exact Bool.false_ne_true), if_neg h2, if_pos h3]
  · intro env cap is_osaka st c rest r h
    unfold selection_loop
    rw [h]

/-- Witness for C3 amended: with cancellation signaled, a fitting candidate
makes the step halt with Cancelled, the oversized candidate is marked
invalid instead, and the loop propagates the halt. -/
theorem c3_cancellation_polled_after_gas_check_witness :
    selection_step c3_env 1024 false initial_selection_state
      { id := 1, ancestors := [], gas_limit := 10, rlp_length := 0,
        is_blob := false, blob_count := 0, sidecar := .missing,
        exec := .success 1, effective_tip := 0 } =
      .halt (.ok .cancelled)
    ∧ selection_step c3_env 1024 false initial_selection_state c3_candidate =
      .advance (mark_invalid initial_selection_state c3_candidate)
    ∧ selection_loop c3_env 1024 false
        (mark_invalid initial_selection_state c3_candidate)
        [{ id := 1, ancestors := [], gas_limit := 10, rlp_length := 0,
           is_blob := false, blob_count := 0, sidecar := .missing,
           exec := .success 1, effective_tip := 0 }] =
      .ok .cancelled :=
  ⟨c3_cancellation_polled_after_gas_check.1 c3_env 1024 false
      initial_selection_state _ (by decide) (by decide) (by decide) rfl,
   c3_cancellation_polled_after_gas_check.2.1 c3_env 1024 false
      initial_selection_state c3_candidate (by decide) (by decide)
      (by decide),
   c3_cancellation_polled_after_gas_check.2.2 c3_env 1024 false
      (mark_invalid initial_selection_state c3_candidate)
      { id := 1, ancestors := [], gas_limit := 10, rlp_length := 0,
        is_blob := false, blob_count := 0, sidecar := .missing,
        exec := .success 1, effective_tip := 0 } [] (.ok .cancelled)
      (c3_cancellation_polled_after_gas_check.1 c3_env 1024 false
        (mark_invalid initial_selection_state c3_candidate) _ (by decide)
        (by decide) (by decide) rfl)⟩

/-- Claim C7: a candidate that reaches execution has exactly three error
behaviours: nonce-too-low is a silent skip that leaves the loop state (in
particular the invalidated set) unchanged, any other validation-class error
marks the candidate invalid and the loop continues, and a non-validation
error halts with a build-fatal error; such a loop error propagates out of
the whole build, so no payload is returned from that run. -/
theorem c7_execution_error_trichotomy :
    (∀ (env : BuildEnv) (cap : Nat) (is_osaka : Bool) (st : SelectionState)
        (c : Candidate),
      (c.ancestors.any fun a => st.invalidated.contains a) = false →
      ¬(st.skip_blobs = true ∧ c.is_blob = true) →
      ¬(st.cumulative_gas_used + c.gas_limit > env.block_gas_limit) →
      env.cancel = false →
      ¬(is_osaka = true ∧ st.block_transactions_rlp_length + c.rlp_length +
          env.withdrawals_length + 1024 > MAX_RLP_BLOCK_SIZE) →
      ¬(c.is_blob = true ∧ st.block_blob_count + c.blob_count > cap) →
      sidecar_check is_osaka c = .proceed →
      ((c.exec = .nonceTooLow →
          selection_step env cap is_osaka st c = .advance st)
       ∧ (c.exec = .invalidOther →
          selection_step env cap is_osaka st c =
            .advance (mark_invalid st c))
       ∧ (c.exec = .fatal →
          selection_step env cap is_osaka st c = .halt (.error .evmFatal))))
    ∧ (∀ (env : BuildEnv) (cands : List Candidate) (e : BuildError),
      validate_payload_attributes env.parent_timestamp env.attrs = .ok () →
      selection_loop env
        (compute_load_blob_cap env.chain_spec env.attrs.timestamp)
        (env.chain_spec.is_osaka_active_at_timestamp env.attrs.timestamp)
        initial_selection_state cands = .error e →
      default_load_payload env cands = .error e) := by
  constructor
  · intro env cap is_osaka st c h1 h2 h3 h4 h5 h6 h7
    refine ⟨?_, ?_, ?_⟩ <;> intro hexec <;>
      (unfold selection_step;
       rw [if_neg (by rw [h1]; exact Bool.false_ne_true), if_neg h2,
         if_neg h3, if_neg (by rw [h4]; exact Bool.false_ne_true), if_neg h5,
         if_neg h6, h7, hexec])
  · intro env cands e hval hloop
    simp only [default_load_payload, hval, hloop]

/-- Witness for C7: against a permissive environment, a nonce-too-low
candidate is skipped with the state unchanged, an otherwise-invalid
candidate is marked invalid, a fatally failing candidate halts the step
with the build-fatal error, and the whole build surfaces that error. -/
theorem c7_execution_error_trichotomy_witness :
    selection_step scen_b_env 1024 false initial_selection_state
      { id := 2, ancestors := [], gas_limit := 21000, rlp_length := 0,
        is_blob := false, blob_count := 0, sidecar := .missing,
        exec := .nonceTooLow, effective_tip := 0 } =
      .advance initial_selection_state
    ∧ selection_step scen_b_env 1024 false initial_selection_state
      { id := 3, ancestors := [], gas_limit := 21000, rlp_length := 0,
        is_blob := false, blob_count := 0, sidecar := .missing,
        exec := .invalidOther, effective_tip := 0 } =
      .advance (mark_invalid initial_selection_state
        { id := 3, ancestors := [], gas_limit := 21000, rlp_length := 0,
          is_blob := false, blob_count := 0, sidecar := .missing,
          exec := .invalidOther, effective_tip := 0 })
    ∧ selection_step scen_b_env 1024 false initial_selection_state
      { id := 4, ancestors := [], gas_limit := 21000, rlp_length := 0,
        is_blob := false, blob_count := 0, sidecar := .missing,
        exec := .fatal, effective_tip := 0 } =
      .halt (.error .evmFatal)
    ∧ default_load_payload scen_b_env
      [{ id := 4, ancestors := [], gas_limit := 21000, rlp_length := 0,
         is_blob := false, blob_count := 0, sidecar := .missing,
         exec := .fatal, effective_tip := 0 }] = .error .evmFatal :=
  ⟨(c7_execution_error_trichotomy.1 scen_b_env 1024 false
      initial_selection_state
      { id := 2, ancestors := [], gas_limit := 21000, rlp_length := 0,
        is_blob := false, blob_count := 0, sidecar := .missing,
        exec := .nonceTooLow, effective_tip := 0 }
      (by decide) (by decide) (by decide) rfl
      (by decide) (by decide) rfl).1 rfl,
   (c7_execution_error_trichotomy.1 scen_b_env 1024 false
      initial_selection_state
      { id := 3, ancestors := [], gas_limit := 21000, rlp_length := 0,
        is_blob := false, blob_count := 0, sidecar := .missing,
        exec := .invalidOther, effective_tip := 0 }
      (by decide) (by decide) (by decide) rfl
      (by decide) (by decide) rfl).2.1 rfl,
   (c7_execution_error_trichotomy.1 scen_b_env 1024 false
      initial_selection_state
      { id := 4, ancestors := [], gas_limit := 21000, rlp_length := 0,
        is_blob := false, blob_count := 0, sidecar := .missing,
        exec := .fatal, effective_tip := 0 }
      (by decide) (by decide) (by decide) rfl
      (by decide) (by decide) rfl).2.2 rfl,
   c7_execution_error_trichotomy.2 scen_b_env
      [{ id := 4, ancestors := [], gas_limit := 21000, rlp_length := 0,
         is_blob := false, blob_count := 0, sidecar := .missing,
         exec := .fatal, effective_tip := 0 }] .evmFatal (by rfl) (by rfl)⟩

/-- Claim C1: every Better outcome carries at most the effective blob cap
for the block timestamp; a candidate whose blobs would overflow the cap is
marked invalid and the loop advances rather than aborting; and the
oversubscribed Scenario B source (33 transactions of 32 items each against
a 1024 cap) still builds successfully with exactly 1024 items. -/
theorem c1_built_payload_blob_cap :
    (∀ (env : BuildEnv) (cands : List Candidate) (p : BuiltPayloadModel),
      default_load_payload env cands = .ok (.better p) →
      p.blob_count ≤ compute_load_blob_cap env.chain_spec
        env.attrs.timestamp)
    ∧ (∀ (env : BuildEnv) (cap : Nat) (is_osaka : Bool)
        (st : SelectionState) (c : Candidate),
      (c.ancestors.any fun a => st.invalidated.contains a) = false →
      ¬(st.skip_blobs = true ∧ c.is_blob = true) →
      ¬(st.cumulative_gas_used + c.gas_limit > env.block_gas_limit) →
      env.cancel = false →
      ¬(is_osaka = true ∧ st.block_transactions_rlp_length + c.rlp_length +
          env.withdrawals_length + 1024 > MAX_RLP_BLOCK_SIZE) →
      c.is_blob = true ∧ st.block_blob_count + c.blob_count > cap →
      selection_step env cap is_osaka st c = .advance (mark_invalid st c))
    ∧ outcome_blob_count
        (default_load_payload scen_b_env scen_b_candidates) = some 1024
    ∧ compute_load_blob_cap scen_b_env.chain_spec
        scen_b_env.attrs.timestamp = 1024 := by
  refine ⟨?_, ?_, by rfl, by rfl⟩
  · intro env cands p h
    simp only [default_load_payload] at h
    split at h
    · cases h
    · split at h
      · cases h
      · cases h
      · rename_i st heq
        split at h
        · split at h
          · cases h
          · cases h
            dsimp only
            refine selection_loop_done_blob_le env
              (compute_load_blob_cap env.chain_spec env.attrs.timestamp)
              (env.chain_spec.is_osaka_active_at_timestamp
                env.attrs.timestamp)
              cands initial_selection_state st ?_ heq
            simp [initial_selection_state]
        · cases h
  · intro env cap is_osaka st c h1 h2 h3 h4 h5 h6
    unfold selection_step
    rw [if_neg (by rw [h1]; exact Bool.false_ne_true), if_neg h2, if_neg h3,
      if_neg (by rw [h4]; exact Bool.false_ne_true), if_neg h5, if_pos h6]

/-- Witness for C1: the Scenario B build stays within the 1024 cap, and a
blob candidate overflowing the cap from the initial state is marked invalid
and skipped. -/
theorem c1_built_payload_blob_cap_witness :
    scen_b_payload.blob_count ≤ compute_load_blob_cap
      scen_b_env.chain_spec scen_b_env.attrs.timestamp
    ∧ selection_step scen_b_env 1024 false initial_selection_state
      { id := 5, ancestors := [], gas_limit := 21000, rlp_length := 0,
        is_blob := true, blob_count := 2000, sidecar := .present false,
        exec := .success 21000, effective_tip := 1 } =
      .advance (mark_invalid initial_selection_state
        { id := 5, ancestors := [], gas_limit := 21000, rlp_length := 0,
          is_blob := true, blob_count := 2000, sidecar := .present false,
          exec := .success 21000, effective_tip := 1 }) :=
  ⟨c1_built_payload_blob_cap.1 scen_b_env scen_b_candidates scen_b_payload
      (by rfl),
   c1_built_payload_blob_cap.2.1 scen_b_env 1024 false
      initial_selection_state _ (by decide) (by decide) (by decide) rfl
      (by decide) (by decide)⟩

/-- A specified-zero or unspecified activation normalizes to genesis. -/
theorem normalize_activation_ok_of (m : String) (v : Option Nat)
    (h : opt_zero v) : normalize_activation m v = .ok (some 0) := by
  rcases h with h | h <;> subst h <;> rfl

/-- A successful normalization implies the input was unspecified or zero
and the output is the genesis activation. -/
theorem normalize_activation_ok_inv (m : String) (v v2 : Option Nat)
    (h : normalize_activation m v = .ok v2) : opt_zero v ∧ v2 = some 0 := by
  unfold normalize_activation at h
  split at h
  · rename_i b
    split at h
    · cases h
    · rename_i hb
      cases h
      have hb0 : b = 0 := not_ne_iff.mp hb
      subst hb0
      exact ⟨Or.inr rfl, rfl⟩
  · cases h
    exact ⟨Or.inl rfl, rfl⟩

/-- When every pre-Cancun entry is unspecified or zero, the whole list
normalizes to genesis activations. -/
theorem normalize_pre_cancun_ok_of :
    ∀ (l : List (Option Nat)), (∀ b ∈ l, opt_zero b) →
      normalize_pre_cancun_forks l = .ok (List.replicate l.length (some 0))
  | [], _ => rfl
  | f :: rest, h => by
    unfold normalize_pre_cancun_forks
    rw [normalize_activation_ok_of _ f (h f (by simp)),
      normalize_pre_cancun_ok_of rest (fun b hb => h b (by simp [hb]))]
    rfl

/-- A successful pre-Cancun normalization implies every input entry was
unspecified or zero and every output entry is the genesis activation. -/
theorem normalize_pre_cancun_ok_inv :
    ∀ (l l2 : List (Option Nat)), normalize_pre_cancun_forks l = .ok l2 →
      (∀ b ∈ l, opt_zero b) ∧ ∀ b ∈ l2, b = some 0 := by
  intro l
  induction l with
  | nil =>
    intro l2 h
    cases h
    exact ⟨by simp, by simp⟩
  | cons f rest ih =>
    intro l2 h
    unfold normalize_pre_cancun_forks at h
    split at h
    · cases h
    · rename_i f2 heq1
      split at h
      · cases h
      · rename_i rest2 heq2
        cases h
        obtain ⟨hf, hf2⟩ := normalize_activation_ok_inv _ f f2 heq1
        obtain ⟨hr, hr2⟩ := ih rest2 heq2
        constructor
        · intro b hb
          rcases List.mem_cons.mp hb with hb | hb
          · exact hb ▸ hf
          · exact hr b hb
        · intro b hb
          rcases List.mem_cons.mp hb with hb | hb
          · exact hb ▸ hf2
          · exact hr2 b hb

/-- Counterexample to C9 as stated: a genesis that leaves the Cancun
activation unspecified and sets every other boundary at genesis is a hard
error, not default-filled; the claim expects every unspecified fork to be
defaulted to genesis. -/
theorem c9_counterexample :
    c9_cex_genesis.cancun_time = none
    ∧ validate_genesis c9_cex_genesis =
      .error "Load Network requires Cancun hardfork at genesis" :=
  ⟨rfl, rfl⟩

/-- Claim C9 amended: derivation succeeds exactly when Cancun is explicitly
scheduled at time 0 and every other constrained boundary (terminal total
difficulty, merge netsplit block, the pre-Cancun fork blocks, Shanghai and
Prague times) is either unspecified or zero — in particular any conflicting
nonzero activation, and also an unspecified Cancun time, is a hard error —
and on success every such boundary of the output is normalized to its
genesis activation with the terminal-difficulty-passed flag forced on. -/
theorem c9_genesis_validation :
    (∀ g : GenesisConfig,
      (∃ g2, validate_genesis g = .ok g2) ↔
      (g.cancun_time = some 0
        ∧ opt_zero g.terminal_total_difficulty
        ∧ opt_zero g.merge_netsplit_block
        ∧ (∀ b ∈ g.pre_cancun_fork_blocks, opt_zero b)
        ∧ opt_zero g.shanghai_time
        ∧ opt_zero g.prague_time))
    ∧ (∀ (g g2 : GenesisConfig), validate_genesis g = .ok g2 →
      g2.cancun_time = some 0
        ∧ g2.terminal_total_difficulty = some 0
        ∧ g2.terminal_total_difficulty_passed = true
        ∧ g2.merge_netsplit_block = some 0
        ∧ (∀ b ∈ g2.pre_cancun_fork_blocks, b = some 0)
        ∧ g2.shanghai_time = some 0
        ∧ g2.prague_time = some 0) := by
  have main : ∀ (g g2 : GenesisConfig), validate_genesis g = .ok g2 →
      (g.cancun_time = some 0
        ∧ opt_zero g.terminal_total_difficulty
        ∧ opt_zero g.merge_netsplit_block
        ∧ (∀ b ∈ g.pre_cancun_fork_blocks, opt_zero b)
        ∧ opt_zero g.shanghai_time
        ∧ opt_zero g.prague_time)
      ∧ (g2.cancun_time = some 0
        ∧ g2.terminal_total_difficulty = some 0
        ∧ g2.terminal_total_difficulty_passed = true
        ∧ g2.merge_netsplit_block = some 0
        ∧ (∀ b ∈ g2.pre_cancun_fork_blocks, b = some 0)
        ∧ g2.shanghai_time = some 0
        ∧ g2.prague_time = some 0) := by
    intro g g2 h
    unfold validate_genesis at h
    split at h
    · cases h
    · rename_i hcancun
      rw [not_ne_iff] at hcancun
      split at h
      · cases h
      · rename_i ttd heq1
        split at h
        · cases h
        · rename_i merge heq2
          split at h
          · cases h
          · rename_i pre heq3
            split at h
            · cases h
            · rename_i sh heq4
              split at h
              · cases h
              · rename_i pr heq5
                cases h
                obtain ⟨h1a, h1b⟩ := normalize_activation_ok_inv _ _ _ heq1
                obtain ⟨h2a, h2b⟩ := normalize_activation_ok_inv _ _ _ heq2
                obtain ⟨h3a, h3b⟩ := normalize_pre_cancun_ok_inv _ _ heq3
                obtain ⟨h4a, h4b⟩ := normalize_activation_ok_inv _ _ _ heq4
                obtain ⟨h5a, h5b⟩ := normalize_activation_ok_inv _ _ _ heq5
                subst h1b h2b h4b h5b
                exact ⟨⟨hcancun, h1a, h2a, h3a, h4a, h5a⟩,
                  ⟨hcancun, rfl, rfl, rfl, h3b, rfl, rfl⟩⟩
  constructor
  · intro g
    constructor
    · intro ⟨g2, h⟩
      exact (main g g2 h).1
    · intro ⟨hc, httd, hmerge, hpre, hsh, hpr⟩
      have heq : validate_genesis g = .ok { g with
          terminal_total_difficulty := some 0
          terminal_total_difficulty_passed := true
          merge_netsplit_block := some 0
          pre_cancun_fork_blocks :=
            List.replicate g.pre_cancun_fork_blocks.length (some 0)
          shanghai_time := some 0
          prague_time := some 0 } := by
        unfold validate_genesis
        rw [if_neg (by simp [hc]),
          normalize_activation_ok_of _ _ httd,
          normalize_activation_ok_of _ _ hmerge,
          normalize_pre_cancun_ok_of _ hpre,
          normalize_activation_ok_of _ _ hsh,
          normalize_activation_ok_of _ _ hpr]
      exact ⟨_, heq⟩
  · intro g g2 h
    exact (main g g2 h).2

/-- Witness for C9 amended: a genesis with only Cancun specified (at zero)
derives successfully, every unspecified boundary is default-filled to
genesis in the output, and the Scenario A genesis with a nonzero Cancun
time fails derivation. -/
theorem c9_genesis_validation_witness :
    (∃ g2, validate_genesis c9_good_genesis = .ok g2)
    ∧ (∀ b ∈ (List.replicate 14 (some 0) : List (Option Nat)), b = some 0)
    ∧ ¬(∃ g2, validate_genesis scen_a_genesis = .ok g2) := by
  refine ⟨?_, ?_, ?_⟩
  · refine (c9_genesis_validation.1 c9_good_genesis).mpr
      ⟨rfl, Or.inl rfl, Or.inl rfl, ?_, Or.inl rfl, Or.inl rfl⟩
    intro b hb
    have hb2 : b ∈ List.replicate 14 (none : Option Nat) := hb
    rw [List.eq_of_mem_replicate hb2]
    exact Or.inl rfl
  · exact (c9_genesis_validation.2 c9_good_genesis
      { cancun_time := some 0
        terminal_total_difficulty := some 0
        terminal_total_difficulty_passed := true
        merge_netsplit_block := some 0
        pre_cancun_fork_blocks := List.replicate 14 (some 0)
        shanghai_time := some 0
        prague_time := some 0 } (by rfl)).2.2.2.2.1
  · intro ⟨g2, h⟩
    have hcontra := ((c9_genesis_validation.1 scen_a_genesis).mp ⟨g2, h⟩).1
    cases hcontra

/-- Witness for C10 at limit one: a spurious release at zero leaves the
counter at zero, a release at one lands at zero, and the gate still admits
after the spurious release. -/
theorem c10_release_underflow_safe_witness :
    release { limit := 1, inflight := 0 } = { limit := 1, inflight := 0 }
    ∧ (release { limit := 1, inflight := 1 }).inflight = 0
    ∧ (try_acquire (release { limit := 1, inflight := 0 })).isSome = true :=
  ⟨(c10_release_underflow_safe 1).1,
   (c10_release_underflow_safe 1).2.1 1 (by decide)
     (by norm_num [USIZE_MOD]),
   (c10_release_underflow_safe 1).2.2 (by decide)⟩
